import Mathlib

/-!
Verification of the classification-and-routing pipeline of the
multi-channel cybersecurity RSS bot (`rss_bot.py`).

The embedding below translates the methods of `MultiChannelCyberSecBot`
into pure Lean functions.  External collaborators (the HTTP client, the
RSS parsing library, the clock) are modelled as explicit parameters:

* the transport outcome of one `requests.post` call is a `TransportResult`
  value supplied by an oracle indexed by the delivery-attempt number;
* "now" is an integer number of seconds, and an entry's
  `published_parsed` field is `Option (Option Int)`:
  `none` means the attribute is absent or falsy, `some none` means the
  field is present but `datetime(*t[:6])` raises (the bare `except: pass`
  swallows it), `some (some t)` means it parses to the instant `t`;
* `datetime.utcnow().isoformat()` is an opaque string parameter.

All string operations mirror Python's: `pyIn` is the substring test
`needle in haystack`, `pyLower` is `str.lower()` (ASCII, which covers
every keyword and every input the bot compares), `strTrunc s n` is the
slice `s[:n]` (first `n` characters).
-/

/-- `needle` occurs as a contiguous sublist of `haystack`. -/
def charsContain (needle : List Char) : List Char → Bool
  | [] => needle.isEmpty
  | c :: rest => needle.isPrefixOf (c :: rest) || charsContain needle rest

/-- Python `needle in haystack` substring containment. -/
def pyIn (needle haystack : String) : Bool :=
  charsContain needle.toList haystack.toList

/-- Python `str.lower()` (ASCII case folding, as used by the bot). -/
def pyLower (s : String) : String :=
  String.mk (s.toList.map Char.toLower)

/-- Python slice `s[:n]`: the first `n` characters of `s`. -/
def strTrunc (s : String) (n : Nat) : String :=
  String.mk (s.toList.take n)

/-- `self.beginner_keywords` from `__init__`. -/
def beginner_keywords : List String :=
  ["beginner", "intro", "introduction", "basics", "fundamentals",
   "getting started", "tutorial", "guide", "101", "basic"]

/-- `self.intermediate_keywords` from `__init__`. -/
def intermediate_keywords : List String :=
  ["advanced", "intermediate", "deep dive", "exploitation", "bypass",
   "analysis", "reverse engineering", "advanced techniques"]

/-- The text scanned by `classify_difficulty`: `f"{title} {description}".lower()`. -/
def difficulty_text (title description : String) : String :=
  pyLower (title ++ " " ++ description)

/-- `sum(1 for keyword in keywords if keyword in text)`. -/
def keyword_score (keywords : List String) (text : String) : Nat :=
  keywords.foldl (fun n k => if pyIn k text then n + 1 else n) 0

/-- `classify_difficulty(self, title, description)`. -/
def classify_difficulty (title description : String) : String :=
  let text := difficulty_text title description
  let beginner_score := keyword_score beginner_keywords text
  let intermediate_score := keyword_score intermediate_keywords text
  if beginner_score > intermediate_score then "beginner"
  else if intermediate_score > 0 then "intermediate"
  else "general"

/-- The keyword list inlined in the first `any(...)` of `get_appropriate_channel`. -/
def writeup_keywords : List String :=
  ["writeup", "write-up", "walkthrough", "solution"]

/-- The keyword list inlined in the second `any(...)` of `get_appropriate_channel`. -/
def ctf_keywords : List String :=
  ["ctf", "capture the flag", "competition", "challenge"]

/-- `get_appropriate_channel(self, category, title, description)`.
The difficulty is computed (and discarded), as in the source. -/
def get_appropriate_channel (category title description : String) : String :=
  let _difficulty := classify_difficulty title description
  if writeup_keywords.any
      (fun keyword => pyIn keyword (pyLower title) || pyIn keyword (pyLower description)) then
    "writeups"
  else if ctf_keywords.any
      (fun keyword => pyIn keyword (pyLower title) || pyIn keyword (pyLower description)) then
    "ctf"
  else
    category

/-- The recency check inlined in `check_single_feed` (lines 182-189):
pass unless a parsed publish time exists and `pub_date < now - timedelta(hours=48)`.
An absent/falsy `published_parsed` is `none`; a present value whose
conversion to `datetime` raises (caught by the bare `except: pass`)
is `some none`; both pass. -/
def recency_pass (now : Int) (published_parsed : Option (Option Int)) : Bool :=
  match published_parsed with
  | none => true
  | some none => true
  | some (some pub_date) => if pub_date < now - 48 * 3600 then false else true

/-!
MD5, as called by `generate_item_id` via `hashlib.md5(...).hexdigest()`.
Words are `Nat` reduced modulo `2 ^ 32 = 4294967296`; the message is a
list of byte values obtained by UTF-8 encoding the hashed string
(`str.encode()` defaults to UTF-8).
-/

/-- UTF-8 encoding of a string as a list of byte values. -/
def utf8Encode (s : String) : List Nat :=
  s.toList.flatMap fun c =>
    let n := c.toNat
    if n < 128 then [n]
    else if n < 2048 then [192 + n / 64, 128 + n % 64]
    else if n < 65536 then [224 + n / 4096, 128 + n / 64 % 64, 128 + n % 64]
    else [240 + n / 262144, 128 + n / 4096 % 64, 128 + n / 64 % 64, 128 + n % 64]

/-- Left-rotation of a 32-bit word. -/
def rotl32 (x s : Nat) : Nat :=
  ((x % 4294967296) * 2 ^ s + (x % 4294967296) / 2 ^ (32 - s)) % 4294967296

/-- MD5 per-round shift amounts. -/
def md5s : List Nat :=
  [7, 12, 17, 22, 7, 12, 17, 22, 7, 12, 17, 22, 7, 12, 17, 22,
   5, 9, 14, 20, 5, 9, 14, 20, 5, 9, 14, 20, 5, 9, 14, 20,
   4, 11, 16, 23, 4, 11, 16, 23, 4, 11, 16, 23, 4, 11, 16, 23,
   6, 10, 15, 21, 6, 10, 15, 21, 6, 10, 15, 21, 6, 10, 15, 21]

/-- MD5 sine-derived round constants. -/
def md5K : List Nat :=
  [0xd76aa478, 0xe8c7b756, 0x242070db, 0xc1bdceee,
   0xf57c0faf, 0x4787c62a, 0xa8304613, 0xfd469501,
   0x698098d8, 0x8b44f7af, 0xffff5bb1, 0x895cd7be,
   0x6b901122, 0xfd987193, 0xa679438e, 0x49b40821,
   0xf61e2562, 0xc040b340, 0x265e5a51, 0xe9b6c7aa,
   0xd62f105d, 0x02441453, 0xd8a1e681, 0xe7d3fbc8,
   0x21e1cde6, 0xc33707d6, 0xf4d50d87, 0x455a14ed,
   0xa9e3e905, 0xfcefa3f8, 0x676f02d9, 0x8d2a4c8a,
   0xfffa3942, 0x8771f681, 0x6d9d6122, 0xfde5380c,
   0xa4beea44, 0x4bdecfa9, 0xf6bb4b60, 0xbebfbc70,
   0x289b7ec6, 0xeaa127fa, 0xd4ef3085, 0x04881d05,
   0xd9d4d039, 0xe6db99e5, 0x1fa27cf8, 0xc4ac5665,
   0xf4292244, 0x432aff97, 0xab9423a7, 0xfc93a039,
   0x655b59c3, 0x8f0ccc92, 0xffeff47d, 0x85845dd1,
   0x6fa87e4f, 0xfe2ce6e0, 0xa3014314, 0x4e0811a1,
   0xf7537e82, 0xbd3af235, 0x2ad7d2bb, 0xeb86d391]

structure MD5State where
  a : Nat
  b : Nat
  c : Nat
  d : Nat

/-- The round-dependent mixing function of MD5. -/
def md5F (i b c d : Nat) : Nat :=
  if i < 16 then Nat.lor (Nat.land b c) (Nat.land (Nat.xor b 4294967295) d)
  else if i < 32 then Nat.lor (Nat.land d b) (Nat.land (Nat.xor d 4294967295) c)
  else if i < 48 then Nat.xor (Nat.xor b c) d
  else Nat.xor c (Nat.lor b (Nat.xor d 4294967295))

/-- The round-dependent message-word index of MD5. -/
def md5g (i : Nat) : Nat :=
  if i < 16 then i
  else if i < 32 then (5 * i + 1) % 16
  else if i < 48 then (3 * i + 5) % 16
  else (7 * i) % 16

/-- One of the 64 MD5 rounds over a 16-word message block `M`. -/
def md5Round (M : List Nat) (st : MD5State) (i : Nat) : MD5State :=
  let f := (md5F i st.b st.c st.d + st.a + md5K.getD i 0 + M.getD (md5g i) 0) % 4294967296
  ⟨st.d, (st.b + rotl32 f (md5s.getD i 0)) % 4294967296, st.b, st.c⟩

/-- Process one 64-byte chunk. -/
def md5Chunk (st : MD5State) (chunk : List Nat) : MD5State :=
  let M := (List.range 16).map fun j =>
    chunk.getD (4 * j) 0 + 256 * chunk.getD (4 * j + 1) 0 +
      65536 * chunk.getD (4 * j + 2) 0 + 16777216 * chunk.getD (4 * j + 3) 0
  let e := (List.range 64).foldl (md5Round M) st
  ⟨(st.a + e.a) % 4294967296, (st.b + e.b) % 4294967296,
   (st.c + e.c) % 4294967296, (st.d + e.d) % 4294967296⟩

/-- MD5 padding: `0x80`, zeros to 56 mod 64, then the 64-bit little-endian bit length. -/
def md5Pad (msg : List Nat) : List Nat :=
  let r := (msg.length + 1) % 64
  let zeros := (120 - r) % 64
  msg ++ [128] ++ List.replicate zeros 0 ++
    (List.range 8).map fun j => msg.length * 8 / 256 ^ j % 256

/-- Split a byte list into 64-byte chunks. -/
def chunks64 (l : List Nat) : List (List Nat) :=
  if h : l = [] then []
  else l.take 64 :: chunks64 (l.drop 64)
termination_by l.length
decreasing_by
  simp [List.length_drop]
  exact List.length_pos.mpr h

/-- Serialize a 32-bit word to four little-endian bytes. -/
def wordLE (w : Nat) : List Nat :=
  [w % 256, w / 256 % 256, w / 65536 % 256, w / 16777216 % 256]

/-- The 16-byte MD5 digest of a byte-list message. -/
def md5Bytes (msg : List Nat) : List Nat :=
  let st := (chunks64 (md5Pad msg)).foldl md5Chunk
    ⟨0x67452301, 0xefcdab89, 0x98badcfe, 0x10325476⟩
  wordLE st.a ++ wordLE st.b ++ wordLE st.c ++ wordLE st.d

/-- Lower-case hexadecimal digit. -/
def hexDigit (n : Nat) : Char :=
  if n < 10 then Char.ofNat (48 + n) else Char.ofNat (87 + n)

/-- Lower-case hexadecimal rendering of a byte list, two digits per byte. -/
def bytesToHex (bs : List Nat) : String :=
  String.mk (bs.flatMap fun b => [hexDigit (b / 16 % 16), hexDigit (b % 16)])

/-- `hashlib.md5(s.encode()).hexdigest()`. -/
def md5hex (s : String) : String :=
  bytesToHex (md5Bytes (utf8Encode s))

/-- `generate_item_id(self, title, link)`:
`hashlib.md5(f"{title}{link}".encode()).hexdigest()`. -/
def generate_item_id (title link : String) : String :=
  md5hex (title ++ link)

/-!
The Notifier (`send_to_discord`) and feed processor (`check_single_feed`).
-/

/-- Outcome of one `requests.post` call: an HTTP status code, or a raised
transport exception. -/
inductive TransportResult where
  | status (code : Nat)
  | exn
deriving DecidableEq

/-- The `colors` dictionary of `send_to_discord`. -/
def colors : List (String × Nat) :=
  [("cryptography", 0x9932CC), ("mobile_security", 0xFF6347),
   ("web_security", 0x1E90FF), ("digital_forensics", 0xFF4500),
   ("osint", 0x20B2AA), ("matlab", 0x0076A8),
   ("writeups", 0x32CD32), ("ctf", 0xFF1493)]

/-- The `emojis` dictionary of `send_to_discord`. -/
def emojis : List (String × String) :=
  [("cryptography", "🔐"), ("mobile_security", "📱"),
   ("web_security", "🌐"), ("digital_forensics", "🔍"),
   ("osint", "🕵️"), ("matlab", "📊"),
   ("writeups", "📝"), ("ctf", "🚩")]

/-- Python `str.replace('_', ' ')`. -/
def underscoresToSpaces (s : String) : String :=
  String.mk (s.toList.map fun c => if c = '_' then ' ' else c)

/-- Python `str.title()`: the first letter of each run of cased characters
is upper-cased, the rest lower-cased. -/
def pyTitleCase (s : String) : String :=
  String.mk (s.toList.foldl
    (fun acc c =>
      (c.isAlpha, acc.2 ++ [if acc.1 then c.toLower else c.toUpper]))
    (false, ([] : List Char))).2

/-- The `embed` dictionary built by `send_to_discord` (line 136-145).
`now_iso` stands for `datetime.utcnow().isoformat()`. -/
structure Embed where
  title : String
  description : String
  url : String
  color : Nat
  footer_text : String
  timestamp : String
deriving DecidableEq

/-- The body of the `requests.post` call: destination webhook together with
the `data` dictionary (`embeds` plus a fixed `username`). -/
structure Payload where
  webhook_url : String
  embed : Embed
  username : String
deriving DecidableEq

/-- Builds the `embed` dictionary of `send_to_discord`. -/
def build_embed (channel title description url now_iso : String) : Embed :=
  ⟨strTrunc title 256,
   if description = "" then "No description available" else strTrunc description 2048,
   url,
   (List.lookup channel colors).getD 0x808080,
   (List.lookup channel emojis).getD "📡" ++ " " ++
     pyTitleCase (underscoresToSpaces channel),
   now_iso⟩

/-- `send_to_discord(self, channel, title, description, url, category)`.
Returns the boolean result of the Python method together with the payload
posted over the network (`none` when no network action was performed).
The `category` parameter is accepted and unused, as in the source. -/
def send_to_discord (webhooks : List (String × String)) (tr : TransportResult)
    (channel title description url _category now_iso : String) :
    Bool × Option Payload :=
  match List.lookup channel webhooks with
  | none => (false, none)
  | some webhook_url =>
    let payload : Payload :=
      ⟨webhook_url, build_embed channel title description url now_iso,
       "🔐 CyberSec Intel Hub"⟩
    match tr with
    | TransportResult.status code => (code == 204, some payload)
    | TransportResult.exn => (false, some payload)

/-- One parsed feed entry, as exposed by the feed-parsing collaborator:
`summary` is `none` when the attribute is missing (`getattr` default `''`),
and `published_parsed` is as in `recency_pass`. -/
structure Entry where
  title : String
  link : String
  summary : Option String
  published_parsed : Option (Option Int)

/-- Record of one delivery attempt made by the feed processor:
the entry's identifier, the state of `posted_items` at the moment of the
attempt, the boolean returned by `send_to_discord`, and the payload it
posted (if any). -/
structure Attempt where
  item_id : String
  seen_before : List String
  success : Bool
  payload : Option Payload

/-- Result of processing one feed: the final `posted_items`,
the final `new_items` counter, and the list of delivery attempts. -/
structure FeedResult where
  posted : List String
  new_items : Nat
  trace : List Attempt

/-- The `for entry in feed.entries[:max_items]` loop of `check_single_feed`
(lines 175-213).  `seen` is `self.posted_items`, `cnt` is `new_items`, and
`idx` numbers the delivery attempts for the transport oracle `orc`. -/
def processEntries (webhooks : List (String × String)) (base_category : String)
    (now : Int) (now_iso : String) (orc : Nat → TransportResult) :
    List Entry → Nat → List String → Nat → FeedResult
  | [], _, seen, cnt => ⟨seen, cnt, []⟩
  | entry :: rest, idx, seen, cnt =>
    let item_id := generate_item_id entry.title entry.link
    if item_id ∈ seen then
      processEntries webhooks base_category now now_iso orc rest (idx + 1) seen cnt
    else if recency_pass now entry.published_parsed = false then
      processEntries webhooks base_category now now_iso orc rest (idx + 1) seen cnt
    else
      let summary := entry.summary.getD ""
      let target_channel := get_appropriate_channel base_category entry.title summary
      let r := send_to_discord webhooks (orc idx) target_channel entry.title summary
        entry.link base_category now_iso
      let seen' := if r.1 then seen ++ [item_id] else seen
      let cnt' := if r.1 then cnt + 1 else cnt
      let a : Attempt := ⟨item_id, seen, r.1, r.2⟩
      if cnt' ≥ 2 then ⟨seen', cnt', [a]⟩
      else
        let fr := processEntries webhooks base_category now now_iso orc rest (idx + 1) seen' cnt'
        ⟨fr.posted, fr.new_items, a :: fr.trace⟩

/-- `check_single_feed(self, feed_url, base_category, max_items=5)`:
if the fetch produced no entries the method returns immediately;
otherwise the loop above runs over `entries[:max_items]` with the
`new_items` counter starting at 0. -/
def check_single_feed (webhooks : List (String × String)) (base_category : String)
    (now : Int) (now_iso : String) (orc : Nat → TransportResult)
    (posted : List String) (entries : List Entry) (max_items : Nat) : FeedResult :=
  if entries.isEmpty then ⟨posted, 0, []⟩
  else processEntries webhooks base_category now now_iso orc
    (entries.take max_items) 0 posted 0

/-- Number of positions of `text` at which `pat` starts (counting
overlapping occurrences). -/
def countOcc (pat : List Char) : List Char → Nat
  | [] => 0
  | c :: rest => (if pat.isPrefixOf (c :: rest) then 1 else 0) + countOcc pat rest

/-- Modelled from the spec: "count case-insensitive substring occurrences of
each configured beginner keyword and each intermediate keyword", where a
keyword occurring twice contributes 2.  Used only to compare the spec's
scoring rule with `keyword_score`, the scoring the code performs. -/
def spec_occurrence_score (keywords : List String) (text : String) : Nat :=
  (keywords.map fun k => countOcc k.toList text.toList).sum

/-!
Helper lemmas.
-/

theorem strTrunc_length (s : String) (n : Nat) :
    (strTrunc s n).length = min n s.length := by
  show (s.data.take n).length = min n s.data.length
  exact List.length_take n s.data

theorem bytesToHex_length (bs : List Nat) : (bytesToHex bs).length = 2 * bs.length := by
  show (bs.flatMap fun b => [hexDigit (b / 16 % 16), hexDigit (b % 16)]).length = 2 * bs.length
  induction bs with
  | nil => rfl
  | cons b t ih => simp only [List.flatMap_cons, List.length_append, List.length_cons,
      List.length_nil, ih, List.length_cons] at ih ⊢; omega

theorem md5Bytes_length (msg : List Nat) : (md5Bytes msg).length = 16 := by
  simp [md5Bytes, wordLE]

theorem foldl_count_eq_length_filter (p : String → Bool) (l : List String) (n : Nat) :
    l.foldl (fun m k => if p k then m + 1 else m) n = n + (l.filter p).length := by
  induction l generalizing n with
  | nil => simp
  | cons k ks ih => by_cases h : p k <;> simp [h, ih] <;> omega

/-!
Claim theorems.
-/

/-- C3: the recency filter passes every entry with no published timestamp
(including entries whose timestamp fails to parse, which are treated as
absent); for an entry with a timestamp it passes exactly when
`now - publishedAt <= 48` hours, and an entry published exactly 48 hours
minus one second ago passes. -/
theorem C3_recency_filter (now t : Int) :
    recency_pass now none = true
    ∧ recency_pass now (some none) = true
    ∧ (recency_pass now (some (some t)) = true ↔ now - t ≤ 48 * 3600)
    ∧ recency_pass now (some (some (now - (48 * 3600 - 1)))) = true := by
  refine ⟨rfl, rfl, ?_, ?_⟩
  · show (if t < now - 48 * 3600 then false else true) = true ↔ now - t ≤ 48 * 3600
    split
    · simp only [Bool.false_eq_true, false_iff]
      omega
    · simp only [true_iff]
      omega
  · show (if now - (48 * 3600 - 1) < now - 48 * 3600 then false else true) = true
    rw [if_neg (by omega)]

/-- C5: the difficulty classifier is total and always returns exactly one of
the three labels, by the rule: `"beginner"` when the beginner score strictly
exceeds the intermediate score, else `"intermediate"` when the intermediate
score is strictly positive, else `"general"`. -/
theorem C5_classifier_decision_rule (title description : String) :
    (classify_difficulty title description = "beginner"
      ∨ classify_difficulty title description = "intermediate"
      ∨ classify_difficulty title description = "general")
    ∧ (keyword_score beginner_keywords (difficulty_text title description)
          > keyword_score intermediate_keywords (difficulty_text title description) →
        classify_difficulty title description = "beginner")
    ∧ (¬ keyword_score beginner_keywords (difficulty_text title description)
          > keyword_score intermediate_keywords (difficulty_text title description) →
        0 < keyword_score intermediate_keywords (difficulty_text title description) →
        classify_difficulty title description = "intermediate")
    ∧ (¬ keyword_score beginner_keywords (difficulty_text title description)
          > keyword_score intermediate_keywords (difficulty_text title description) →
        keyword_score intermediate_keywords (difficulty_text title description) = 0 →
        classify_difficulty title description = "general") := by
  simp only [classify_difficulty]
  refine ⟨?_, fun h => ?_, fun h₁ h₂ => ?_, fun h₁ h₂ => ?_⟩
  · split
    · exact Or.inl rfl
    split
    · exact Or.inr (Or.inl rfl)
    · exact Or.inr (Or.inr rfl)
  · rw [if_pos h]
  · rw [if_neg h₁, if_pos h₂]
  · rw [if_neg h₁, if_neg (by omega)]

/-- C5 witness: at a concrete input with no keywords at all, the classifier
returns `"general"`, through the third branch of the decision rule. -/
theorem C5_classifier_decision_rule_witness :
    classify_difficulty "Heap Notes" "" = "general" :=
  (C5_classifier_decision_rule "Heap Notes" "").2.2.2 (by decide) (by decide)

/-- C6 counterexample: the code's scores are not occurrence counts.
On the spec's own example `"Advanced Exploitation Techniques: Deep Dive"`
the code computes 3 intermediate keyword hits (`advanced`, `deep dive`,
`exploitation`), not 2 as the claim states; and on `"tutorial tutorial"`,
where the keyword `tutorial` occurs twice (occurrence count 2), the code's
beginner score is 1: each keyword contributes at most once. -/
theorem C6_counterexample :
    keyword_score intermediate_keywords
        (difficulty_text "Advanced Exploitation Techniques: Deep Dive" "") = 3
    ∧ keyword_score beginner_keywords (difficulty_text "tutorial tutorial" "") = 1
    ∧ spec_occurrence_score beginner_keywords
        (difficulty_text "tutorial tutorial" "") = 2 := by
  refine ⟨by decide, by decide, by decide⟩

/-- C6 amended: the beginner and intermediate scores are the numbers of
configured keywords that occur at least once as a case-insensitive substring
of the lowercased concatenation of title and description — each keyword
contributes at most 1 regardless of how often it occurs.  The example text
`"Advanced Exploitation Techniques: Deep Dive"` scores 0 beginner and 3
intermediate keyword hits and is classified `"intermediate"`. -/
theorem C6_membership_scoring :
    (∀ keywords text, keyword_score keywords text
        = (keywords.filter fun k => pyIn k text).length)
    ∧ keyword_score beginner_keywords
        (difficulty_text "Advanced Exploitation Techniques: Deep Dive" "") = 0
    ∧ keyword_score intermediate_keywords
        (difficulty_text "Advanced Exploitation Techniques: Deep Dive" "") = 3
    ∧ classify_difficulty "Advanced Exploitation Techniques: Deep Dive" "" = "intermediate"
    ∧ keyword_score beginner_keywords (difficulty_text "tutorial tutorial" "") = 1 := by
  refine ⟨fun keywords text => ?_, by decide, by decide, by decide, by decide⟩
  have h := foldl_count_eq_length_filter (fun k => pyIn k text) keywords 0
  simpa [keyword_score] using h

/-- C7 counterexample: distinct `(title, link)` pairs can collide, because
the identifier hashes the bare concatenation `f"{title}{link}"`:
the pairs `("ab", "c")` and `("a", "bc")` are distinct yet receive the same
identifier. -/
theorem C7_counterexample :
    (("ab", "c") : String × String) ≠ ("a", "bc")
    ∧ generate_item_id "ab" "c" = generate_item_id "a" "bc" := by
  refine ⟨by decide, ?_⟩
  show md5hex ("ab" ++ "c") = md5hex ("a" ++ "bc")
  exact congrArg md5hex (by decide)

/-- C7 amended: the identifier is a fixed-length (32-hex-character)
fingerprint, deterministic for identical `(title, link)` pairs; it is a
function of the concatenation `title ++ link` only, so any two pairs with
equal concatenation — even distinct ones — receive the same identifier. -/
theorem C7_deterministic_fingerprint :
    (∀ title link, generate_item_id title link = generate_item_id title link)
    ∧ (∀ t₁ l₁ t₂ l₂, t₁ ++ l₁ = t₂ ++ l₂ →
        generate_item_id t₁ l₁ = generate_item_id t₂ l₂)
    ∧ (∀ title link, (generate_item_id title link).length = 32) := by
  refine ⟨fun _ _ => rfl, fun t₁ l₁ t₂ l₂ h => congrArg md5hex h, fun title link => ?_⟩
  show (bytesToHex (md5Bytes (utf8Encode (title ++ link)))).length = 32
  rw [bytesToHex_length, md5Bytes_length]

/-- C7 amended witness: the concatenation hypothesis discharged at the
concrete colliding pairs. -/
theorem C7_deterministic_fingerprint_witness :
    generate_item_id "ab" "c" = generate_item_id "a" "bc" :=
  C7_deterministic_fingerprint.2.1 "ab" "c" "a" "bc" (by decide)

/-- C9: when no delivery endpoint is registered for the destination channel,
`send_to_discord` performs no network action (no payload is posted) and
reports a non-success outcome; being a total function, it raises nothing and
the run continues. -/
theorem C9_missing_webhook (webhooks : List (String × String)) (tr : TransportResult)
    (channel title description url category now_iso : String)
    (h : List.lookup channel webhooks = none) :
    send_to_discord webhooks tr channel title description url category now_iso
      = (false, none) := by
  simp [send_to_discord, h]

/-- C9 witness: concrete invocation with an empty webhook registry. -/
theorem C9_missing_webhook_witness :
    send_to_discord [] (TransportResult.status 204) "ctf" "t" "d" "u" "c" "ts"
      = (false, none) :=
  C9_missing_webhook [] (TransportResult.status 204) "ctf" "t" "d" "u" "c" "ts" rfl

/-- C4: the channel router evaluates its rules in order, first match wins:
a writeup keyword in title or description (case-insensitive) routes to
`"writeups"`; otherwise a ctf keyword routes to `"ctf"`; otherwise the source
category is returned unchanged.  In particular a title containing both
writeup and ctf keywords — `"CTF Writeup: Pwning the Box"` — routes to
`"writeups"`. -/
theorem C4_channel_router (category title description : String) :
    ((∃ k ∈ writeup_keywords,
        pyIn k (pyLower title) = true ∨ pyIn k (pyLower description) = true) →
      get_appropriate_channel category title description = "writeups")
    ∧ ((∀ k ∈ writeup_keywords,
          pyIn k (pyLower title) = false ∧ pyIn k (pyLower description) = false) →
        (∃ k ∈ ctf_keywords,
          pyIn k (pyLower title) = true ∨ pyIn k (pyLower description) = true) →
        get_appropriate_channel category title description = "ctf")
    ∧ ((∀ k ∈ writeup_keywords,
          pyIn k (pyLower title) = false ∧ pyIn k (pyLower description) = false) →
        (∀ k ∈ ctf_keywords,
          pyIn k (pyLower title) = false ∧ pyIn k (pyLower description) = false) →
        get_appropriate_channel category title description = category)
    ∧ get_appropriate_channel category "CTF Writeup: Pwning the Box" "" = "writeups" := by
  have bridge : ∀ ks : List String,
      (ks.any fun keyword =>
        pyIn keyword (pyLower title) || pyIn keyword (pyLower description)) = true
      ↔ ∃ k ∈ ks, pyIn k (pyLower title) = true ∨ pyIn k (pyLower description) = true := by
    intro ks
    simp [List.any_eq_true]
  have neg : ∀ ks : List String,
      (∀ k ∈ ks, pyIn k (pyLower title) = false ∧ pyIn k (pyLower description) = false) →
      ¬ (ks.any fun keyword =>
          pyIn keyword (pyLower title) || pyIn keyword (pyLower description)) = true := by
    intro ks hall hany
    obtain ⟨k, hk, hor⟩ := (bridge ks).mp hany
    rcases hor with h | h
    · exact absurd h (by simp [(hall k hk).1])
    · exact absurd h (by simp [(hall k hk).2])
  simp only [get_appropriate_channel]
  refine ⟨fun h => ?_, fun h₁ h₂ => ?_, fun h₁ h₂ => ?_, ?_⟩
  · rw [if_pos ((bridge writeup_keywords).mpr h)]
  · rw [if_neg (neg writeup_keywords h₁), if_pos ((bridge ctf_keywords).mpr h₂)]
  · rw [if_neg (neg writeup_keywords h₁), if_neg (neg ctf_keywords h₂)]
  · rw [if_pos (show (writeup_keywords.any fun keyword =>
      pyIn keyword (pyLower "CTF Writeup: Pwning the Box") || pyIn keyword (pyLower "")) = true
      by decide)]

/-- C4 witness: the router applied to the spec's example title, with the
writeup-keyword hypothesis discharged concretely. -/
theorem C4_channel_router_witness :
    get_appropriate_channel "cryptography" "CTF Writeup: Pwning the Box" "" = "writeups" :=
  (C4_channel_router "cryptography" "CTF Writeup: Pwning the Box" "").1
    ⟨"writeup", by decide, Or.inl (by decide)⟩

/-- Length of a string built from an explicit character list. -/
theorem String_mk_length (l : List Char) : (String.mk l).length = l.length := rfl

/-- C8: in the message the Notifier builds, the title field is the input
title truncated to at most 256 characters (a 300-character title becomes
exactly 256) and the description field is the input description truncated to
at most 2048 characters (a 3000-character description becomes exactly 2048),
an empty description being replaced by the fixed placeholder
`"No description available"` (24 characters).  The embed so built is exactly
the payload `send_to_discord` posts when a webhook is registered. -/
theorem C8_notifier_truncation (channel title description url category now_iso whurl : String)
    (tr : TransportResult) :
    (build_embed channel title description url now_iso).title = strTrunc title 256
    ∧ (build_embed channel title description url now_iso).title.length = min 256 title.length
    ∧ (build_embed channel title description url now_iso).description
        = (if description = "" then "No description available" else strTrunc description 2048)
    ∧ (build_embed channel title description url now_iso).description.length
        = (if description = "" then 24 else min 2048 description.length)
    ∧ (send_to_discord [(channel, whurl)] tr channel title description url category now_iso).2
        = some ⟨whurl, build_embed channel title description url now_iso,
            "🔐 CyberSec Intel Hub"⟩
    ∧ (build_embed channel (String.mk (List.replicate 300 'a'))
        (String.mk (List.replicate 3000 'b')) url now_iso).title.length = 256
    ∧ (build_embed channel (String.mk (List.replicate 300 'a'))
        (String.mk (List.replicate 3000 'b')) url now_iso).description.length = 2048 := by
  refine ⟨rfl, strTrunc_length title 256, rfl, ?_, ?_, ?_, ?_⟩
  · by_cases h : description = ""
    · simp only [build_embed, if_pos h]
      rfl
    · simp only [build_embed, if_neg h]
      exact strTrunc_length description 2048
  · cases tr <;> simp [send_to_discord, List.lookup]
  · show (strTrunc (String.mk (List.replicate 300 'a')) 256).length = 256
    rw [strTrunc_length, String_mk_length, List.length_replicate]
    decide
  · have hne : String.mk (List.replicate 3000 'b') ≠ "" := by
      intro h
      have := congrArg String.length h
      rw [String_mk_length, List.length_replicate] at this
      exact absurd this (by decide)
    show (if String.mk (List.replicate 3000 'b') = "" then "No description available"
      else strTrunc (String.mk (List.replicate 3000 'b')) 2048).length = 2048
    rw [if_neg hne, strTrunc_length, String_mk_length, List.length_replicate]
    decide

/-- Loop invariant: if the `new_items` counter is below 2 when the loop
(re-)enters, the final counter never exceeds 2 — the `break` at
`new_items >= 2` fires as soon as it reaches 2. -/
theorem processEntries_new_items_le (webhooks : List (String × String))
    (cat : String) (now : Int) (niso : String) (orc : Nat → TransportResult)
    (entries : List Entry) :
    ∀ (idx : Nat) (seen : List String) (cnt : Nat), cnt < 2 →
      (processEntries webhooks cat now niso orc entries idx seen cnt).new_items ≤ 2 := by
  induction entries with
  | nil =>
    intro idx seen cnt h
    simp only [processEntries]
    omega
  | cons entry rest ih =>
    intro idx seen cnt h
    simp only [processEntries]
    split
    · exact ih (idx + 1) seen cnt h
    split
    · exact ih (idx + 1) seen cnt h
    cases hX : (send_to_discord webhooks (orc idx)
        (get_appropriate_channel cat entry.title (entry.summary.getD ""))
        entry.title (entry.summary.getD "") entry.link cat niso).1 <;>
      simp only [hX, Bool.false_eq_true, if_false, if_true]
    · split
      · dsimp only
        omega
      · dsimp only
        exact ih (idx + 1) seen cnt h
    · split
      · dsimp only
        omega
      · dsimp only
        exact ih (idx + 1) _ _ (by omega)

/-- Loop invariant: every delivery attempt the loop records is for an
identifier not in `posted_items` at the moment of the attempt, and
`posted_items` only grows, so the set at the moment of any attempt contains
everything it contained when the loop started. -/
theorem processEntries_trace_fresh (webhooks : List (String × String))
    (cat : String) (now : Int) (niso : String) (orc : Nat → TransportResult)
    (entries : List Entry) :
    ∀ (idx : Nat) (seen : List String) (cnt : Nat),
      ∀ a ∈ (processEntries webhooks cat now niso orc entries idx seen cnt).trace,
        a.item_id ∉ a.seen_before ∧ ∀ x ∈ seen, x ∈ a.seen_before := by
  induction entries with
  | nil =>
    intro idx seen cnt a ha
    simp only [processEntries] at ha
    exact absurd ha (List.not_mem_nil a)
  | cons entry rest ih =>
    intro idx seen cnt a ha
    simp only [processEntries] at ha
    split at ha
    · exact ih (idx + 1) seen cnt a ha
    split at ha
    · exact ih (idx + 1) seen cnt a ha
    rename_i hfresh _
    cases hX : (send_to_discord webhooks (orc idx)
        (get_appropriate_channel cat entry.title (entry.summary.getD ""))
        entry.title (entry.summary.getD "") entry.link cat niso).1 <;>
      simp only [hX, Bool.false_eq_true, if_false, if_true] at ha
    · split at ha
      · dsimp only at ha
        rcases List.mem_singleton.mp ha with rfl
        exact ⟨hfresh, fun x hx => hx⟩
      · dsimp only at ha
        rcases List.mem_cons.mp ha with rfl | hmem
        · exact ⟨hfresh, fun x hx => hx⟩
        · exact ih (idx + 1) seen cnt a hmem
    · split at ha
      · dsimp only at ha
        rcases List.mem_singleton.mp ha with rfl
        exact ⟨hfresh, fun x hx => hx⟩
      · dsimp only at ha
        rcases List.mem_cons.mp ha with rfl | hmem
        · exact ⟨hfresh, fun x hx => hx⟩
        · obtain ⟨h1, h2⟩ := ih (idx + 1)
            (seen ++ [generate_item_id entry.title entry.link]) (cnt + 1) a hmem
          exact ⟨h1, fun x hx => h2 x (List.mem_append_left _ hx)⟩

/-- C1: in every invocation of `check_single_feed`, at most 2 entries are
successfully delivered (`new_items` never exceeds 2), and no delivery is
ever attempted for an entry whose identifier is already in
`posted_items` — neither one present before the call nor one added by an
earlier success of the same call. -/
theorem C1_cap_and_no_redelivery (webhooks : List (String × String))
    (cat : String) (now : Int) (niso : String) (orc : Nat → TransportResult)
    (posted : List String) (entries : List Entry) (max_items : Nat) :
    (check_single_feed webhooks cat now niso orc posted entries max_items).new_items ≤ 2
    ∧ ∀ a ∈ (check_single_feed webhooks cat now niso orc posted entries max_items).trace,
        a.item_id ∉ a.seen_before ∧ ∀ x ∈ posted, x ∈ a.seen_before := by
  unfold check_single_feed
  split
  · refine ⟨Nat.zero_le 2, fun a ha => ?_⟩
    exact absurd ha (List.not_mem_nil a)
  · exact ⟨processEntries_new_items_le webhooks cat now niso orc
        (entries.take max_items) 0 posted 0 (by omega),
      processEntries_trace_fresh webhooks cat now niso orc
        (entries.take max_items) 0 posted 0⟩

/-- C1 witness: concrete run over one feed entry with no webhook configured;
the theorem instantiated at the recorded attempt. -/
theorem C1_cap_and_no_redelivery_witness :
    (check_single_feed [] "web_security" 0 "ts" (fun _ => TransportResult.exn) []
        [⟨"t", "l", none, none⟩] 5).new_items ≤ 2
    ∧ generate_item_id "t" "l" ∉ ([] : List String) :=
  ⟨(C1_cap_and_no_redelivery [] "web_security" 0 "ts" (fun _ => TransportResult.exn) []
      [⟨"t", "l", none, none⟩] 5).1,
    ((C1_cap_and_no_redelivery [] "web_security" 0 "ts" (fun _ => TransportResult.exn) []
        [⟨"t", "l", none, none⟩] 5).2
      ⟨generate_item_id "t" "l", [], false, none⟩
      (by simp [check_single_feed, processEntries, recency_pass, send_to_discord])).1⟩

/-- C2: a delivery attempt that does not succeed — `send_to_discord` returns
`False` whenever the transport status is not 204 or the transport raises —
leaves `posted_items` untouched and does not increment the per-feed success
counter: the loop proceeds to the remaining entries with exactly the same
`seen` and `cnt`, only recording the failed attempt. -/
theorem C2_failed_delivery_frame (webhooks : List (String × String)) (cat : String)
    (now : Int) (niso : String) (orc : Nat → TransportResult)
    (entry : Entry) (rest : List Entry) (idx : Nat) (seen : List String) (cnt : Nat)
    (hseen : generate_item_id entry.title entry.link ∉ seen)
    (hrec : recency_pass now entry.published_parsed = true)
    (hfail : (send_to_discord webhooks (orc idx)
        (get_appropriate_channel cat entry.title (entry.summary.getD ""))
        entry.title (entry.summary.getD "") entry.link cat niso).1 = false)
    (hcnt : cnt < 2) :
    (∀ (wh : List (String × String)) (tr : TransportResult) (ch t d u c n : String),
        tr ≠ TransportResult.status 204 → (send_to_discord wh tr ch t d u c n).1 = false)
    ∧ processEntries webhooks cat now niso orc (entry :: rest) idx seen cnt
        = ⟨(processEntries webhooks cat now niso orc rest (idx + 1) seen cnt).posted,
           (processEntries webhooks cat now niso orc rest (idx + 1) seen cnt).new_items,
           ⟨generate_item_id entry.title entry.link, seen, false,
             (send_to_discord webhooks (orc idx)
               (get_appropriate_channel cat entry.title (entry.summary.getD ""))
               entry.title (entry.summary.getD "") entry.link cat niso).2⟩
             :: (processEntries webhooks cat now niso orc rest (idx + 1) seen cnt).trace⟩ := by
  constructor
  · intro wh tr ch t d u c n htr
    cases hl : List.lookup ch wh with
    | none => simp [send_to_discord, hl]
    | some wurl =>
      cases tr with
      | exn => simp [send_to_discord, hl]
      | status code =>
        have hc : code ≠ 204 := fun hcode => htr (by rw [hcode])
        simp [send_to_discord, hl, hc]
  · simp only [processEntries]
    rw [if_neg hseen, if_neg (by simp [hrec])]
    simp only [hfail, Bool.false_eq_true, if_false]
    rw [if_neg (by omega)]

/-- C2 witness: the frame equation instantiated at a concrete failed
delivery (no webhook registered, so the attempt fails), with all
hypotheses discharged. -/
theorem C2_failed_delivery_frame_witness :
    processEntries [] "osint" 0 "ts" (fun _ => TransportResult.status 500)
        (⟨"t", "l", none, none⟩ :: []) 0 [] 0
      = ⟨(processEntries [] "osint" 0 "ts" (fun _ => TransportResult.status 500) [] 1 [] 0).posted,
         (processEntries [] "osint" 0 "ts" (fun _ => TransportResult.status 500) [] 1 [] 0).new_items,
         ⟨generate_item_id "t" "l", [], false, none⟩
           :: (processEntries [] "osint" 0 "ts" (fun _ => TransportResult.status 500) [] 1 [] 0).trace⟩ :=
  (C2_failed_delivery_frame [] "osint" 0 "ts" (fun _ => TransportResult.status 500)
    ⟨"t", "l", none, none⟩ [] 0 [] 0
    (by simp) rfl rfl (by decide)).2

/-- C10: an entry that is skipped — its identifier already in
`posted_items`, or the recency filter failing — triggers no delivery
attempt: processing the feed from that entry on equals processing the
remaining entries with `posted_items` and the success counter unchanged
(in particular no attempt for the skipped entry is recorded). -/
theorem C10_skip_frame (webhooks : List (String × String)) (cat : String)
    (now : Int) (niso : String) (orc : Nat → TransportResult)
    (entry : Entry) (rest : List Entry) (idx : Nat) (seen : List String) (cnt : Nat)
    (hskip : generate_item_id entry.title entry.link ∈ seen
      ∨ recency_pass now entry.published_parsed = false) :
    processEntries webhooks cat now niso orc (entry :: rest) idx seen cnt
      = processEntries webhooks cat now niso orc rest (idx + 1) seen cnt := by
  by_cases hm : generate_item_id entry.title entry.link ∈ seen
  · simp only [processEntries]
    rw [if_pos hm]
  · rcases hskip with h | h
    · exact absurd h hm
    · simp only [processEntries]
      rw [if_neg hm, if_pos h]

/-- C10 witness: the skip equation instantiated at an entry whose
identifier is already in `posted_items`. -/
theorem C10_skip_frame_witness :
    processEntries [] "osint" 0 "ts" (fun _ => TransportResult.exn)
        (⟨"t", "l", none, none⟩ :: []) 0 [generate_item_id "t" "l"] 0
      = processEntries [] "osint" 0 "ts" (fun _ => TransportResult.exn)
          [] 1 [generate_item_id "t" "l"] 0 :=
  C10_skip_frame [] "osint" 0 "ts" (fun _ => TransportResult.exn)
    ⟨"t", "l", none, none⟩ [] 0 [generate_item_id "t" "l"] 0
    (Or.inl (List.mem_singleton.mpr rfl))
